import Mathlib

/-!
Shallow embedding of the photon-counter repository core
(src/src/photon_conversion.py, src/src/acquisition.py,
src/src/visualization.py, src/photon_counter.py).

Sensor ADU values and derived quantities are modelled as rationals;
Python ints are modelled as ℤ (or ℕ where the source value is a count);
a frame is a rectangular grid of rationals; `None` outcomes are `Option`.
-/

/-! ## Conversion model (src/src/photon_conversion.py) -/

/-- EMVA 1288 system gain constant, `SYSTEM_GAIN = 0.35` electrons per ADU. -/
def SYSTEM_GAIN : ℚ := 35 / 100

/-- EMVA 1288 quantum-efficiency constant, `QE_AT_525NM = 0.6182`. -/
def QE_AT_525NM : ℚ := 6182 / 10000

/-- `adu_to_photons(signal_adu, dark_adu, gain, quantum_efficiency)`:
subtract the dark baseline, clip the delta at zero, multiply by gain
and divide by quantum efficiency. -/
def adu_to_photons (signal_adu dark_adu gain quantum_efficiency : ℚ) : ℚ :=
  let delta_adu := signal_adu - dark_adu
  let delta_adu := max 0 delta_adu
  let electrons := delta_adu * gain
  electrons / quantum_efficiency

/-- `adu_to_electrons(signal_adu, dark_adu, gain)`: subtract the dark
baseline, clip the delta at zero, multiply by gain. -/
def adu_to_electrons (signal_adu dark_adu gain : ℚ) : ℚ :=
  let delta_adu := signal_adu - dark_adu
  let delta_adu := max 0 delta_adu
  delta_adu * gain

/-- `electrons_to_photons(electrons, quantum_efficiency)`: divide the
electron count by the quantum efficiency. -/
def electrons_to_photons (electrons quantum_efficiency : ℚ) : ℚ :=
  electrons / quantum_efficiency

/-! ## Region reducer (src/src/acquisition.py, `extract_roi`) -/

/-- A frame is a 2-D grid of intensity samples (rows of pixel values). -/
abbrev Frame := List (List ℚ)

/-- Frame height, `image.shape[0]`. -/
def frameH (image : Frame) : ℕ := image.length

/-- Frame width, `image.shape[1]` (row length of the rectangular grid). -/
def frameW (image : Frame) : ℕ := (image.headD []).length

/-- Horizontal ROI offset computed by `extract_roi`:
`x0 = w // 2 - roi_w // 2` (Python floor division on nonnegative ints,
so ℤ division of the casts coincides with it). -/
def roi_x0 (w roi_w : ℕ) : ℤ := (w : ℤ) / 2 - (roi_w : ℤ) / 2

/-- Vertical ROI offset computed by `extract_roi`:
`y0 = h // 2 - roi_h // 2`. -/
def roi_y0 (h roi_h : ℕ) : ℤ := (h : ℤ) / 2 - (roi_h : ℤ) / 2

/-- `extract_roi(image, roi_size)`: slice the centered window
`image[y0 : y0 + roi_h, x0 : x0 + roi_w]`.  The slice with a
nonnegative start is `drop` then `take` on each axis. -/
def extract_roi (image : Frame) (roi_size : ℕ × ℕ) : Frame :=
  let h := frameH image
  let w := frameW image
  let roi_w := roi_size.1
  let roi_h := roi_size.2
  let x0 := roi_x0 w roi_w
  let y0 := roi_y0 h roi_h
  ((image.drop y0.toNat).take roi_h).map fun row => (row.drop x0.toNat).take roi_w

/-- `roi.mean()`: arithmetic mean over all entries of the grid. -/
def matMean (m : Frame) : ℚ :=
  (m.map List.sum).sum / ((m.map List.length).sum : ℕ)

/-- `np.mean` over a list of scalars. -/
def listMean (xs : List ℚ) : ℚ := xs.sum / (xs.length : ℕ)

/-! ## Acquisition state machine (src/src/acquisition.py) -/

/-- The state dictionary built by `create_acquisition_state`. -/
structure AcqState where
  frame_idx : ℕ
  baseline_vals : List ℚ
  mean_dark : ℚ
  is_calibrated : Bool
  baseline_frames : ℕ
  gain : ℚ
  qe : ℚ
deriving Repr, DecidableEq

/-- `create_acquisition_state(baseline_frames, gain, quantum_efficiency)`:
returns the initial state dictionary; the source performs no validation
of the arguments. -/
def create_acquisition_state (baseline_frames : ℕ) (gain quantum_efficiency : ℚ) :
    AcqState :=
  { frame_idx := 0
    baseline_vals := []
    mean_dark := 0
    is_calibrated := false
    baseline_frames := baseline_frames
    gain := gain
    qe := quantum_efficiency }

/-- `complete_calibration(state)`: freeze `mean_dark` as the mean of the
baseline samples and flip `is_calibrated` (the printed statistics are
side effects only). -/
def complete_calibration (s : AcqState) : AcqState :=
  { s with mean_dark := listMean s.baseline_vals, is_calibrated := true }

/-- `reset_calibration(state)`: clear the baseline samples, zero the dark
mean, drop the calibrated flag and reset the frame counter. -/
def reset_calibration (s : AcqState) : AcqState :=
  { s with baseline_vals := [], mean_dark := 0, is_calibrated := false,
           frame_idx := 0 }

/-- `process_frame(cam, state, roi_size)`: one tick.  The frame pull is
abstracted as an `Option Frame` input (`none` models an acquisition
timeout or incomplete read, in which case the source returns `None`
after incrementing `frame_idx`).  Returns the updated state together
with the emitted reading. -/
def process_frame (s : AcqState) (image : Option Frame) (roi_size : ℕ × ℕ) :
    AcqState × Option ℚ :=
  match image with
  | none => ({ s with frame_idx := s.frame_idx + 1 }, none)
  | some img =>
    let mean_adu := matMean (extract_roi img roi_size)
    if s.is_calibrated = false then
      let s1 := { s with baseline_vals := s.baseline_vals ++ [mean_adu],
                         frame_idx := s.frame_idx + 1 }
      let s2 := if s1.baseline_frames ≤ s1.baseline_vals.length then
                  complete_calibration s1
                else s1
      (s2, some 0)
    else
      let photons := adu_to_photons mean_adu s.mean_dark s.gain s.qe
      ({ s with frame_idx := s.frame_idx + 1 }, some photons)

/-- Run `process_frame` over a list of tick inputs, left to right. -/
def run_ticks (s : AcqState) (images : List (Option Frame)) (roi_size : ℕ × ℕ) :
    AcqState :=
  images.foldl (fun st img => (process_frame st img roi_size).1) s

/-! ## Bounded history buffer (src/src/visualization.py) -/

/-- `limit_plot_history(data_x, data_y, max_points)`: while
`len(data_x) > max_points`, pop the front element of both lists.
Structural recursion on `data_x` mirrors the loop (each iteration
shortens `data_x` by one). -/
def limit_plot_history {α β : Type} :
    List α → List β → ℕ → List α × List β
  | [], data_y, _ => ([], data_y)
  | x :: xs, data_y, max_points =>
    if max_points < (x :: xs).length then
      limit_plot_history xs data_y.tail max_points
    else
      (x :: xs, data_y)

/-! ## Session orchestration (src/photon_counter.py, `update`) -/

/-- One invocation of the timer callback `update`: process a tick, and
only when a reading was produced and `acq_state['is_calibrated']` holds
afterwards, append `(frame_idx, photons)` to the plot data
(`update_plot`) and evict down to `max_points` (`limit_plot_history`). -/
def update_step (acq : AcqState) (data_x : List ℕ) (data_y : List ℚ)
    (roi_size : ℕ × ℕ) (max_points : ℕ) (image : Option Frame) :
    AcqState × List ℕ × List ℚ :=
  let r := process_frame acq image roi_size
  match r.2 with
  | none => (r.1, data_x, data_y)
  | some photons =>
    if r.1.is_calibrated then
      let appended_x := data_x ++ [r.1.frame_idx]
      let appended_y := data_y ++ [photons]
      let limited := limit_plot_history appended_x appended_y max_points
      (r.1, limited.1, limited.2)
    else
      (r.1, data_x, data_y)

/-- The main loop's buffer updates for `n` sequential points with
capacity `m`: starting from empty plot data, append point
`(i, i)` and evict (`limit_plot_history`) once per tick, as the timer
callback does for calibrated readings. -/
def append_points (n m : ℕ) : List ℕ × List ℚ :=
  (List.range n).foldl
    (fun (b : List ℕ × List ℚ) (i : ℕ) =>
      limit_plot_history (b.1 ++ [i]) (b.2 ++ [(i : ℚ)]) m)
    ([], [])

/-! ## Theorems -/

/-- The eviction loop drops exactly the oldest `length - max_points`
entries of both lists (counted on `data_x`, as the source loop's guard
does). -/
lemma limit_plot_history_eq {α β : Type} (dx : List α) (dy : List β) (m : ℕ) :
    limit_plot_history dx dy m =
      (dx.drop (dx.length - m), dy.drop (dx.length - m)) := by
  induction dx generalizing dy with
  | nil => simp [limit_plot_history]
  | cons x xs ih =>
    rw [limit_plot_history]
    by_cases hm : m < (x :: xs).length
    · rw [if_pos hm, ih]
      have h1 : (x :: xs).length - m = (xs.length - m) + 1 := by
        simp only [List.length_cons] at hm ⊢
        omega
      rw [h1, List.drop_succ_cons, ← List.drop_one, List.drop_drop,
        Nat.add_comm]
    · rw [if_neg hm]
      have h0 : (x :: xs).length - m = 0 := by
        simp only [List.length_cons] at hm ⊢
        omega
      rw [h0]
      simp

/-- Appending `n` sequential points through the per-tick
append-and-evict step retains exactly the most recent `min n m` of
them, in order. -/
lemma append_points_fst (n m : ℕ) :
    (append_points n m).1 = (List.range n).drop (n - m) := by
  induction n with
  | zero => simp [append_points]
  | succ n ih =>
    have hstep : append_points (n + 1) m =
        limit_plot_history ((append_points n m).1 ++ [n])
          ((append_points n m).2 ++ [(n : ℚ)]) m := by
      unfold append_points
      rw [List.range_succ, List.foldl_append]
      rfl
    rw [hstep, limit_plot_history_eq, ih]
    simp only [List.length_append, List.length_drop, List.length_range,
      List.length_cons, List.length_nil]
    rw [← List.drop_append_of_le_length (by simp), List.drop_drop,
      ← List.range_succ]
    congr 1
    omega

/-- C6: for all `x ≥ 0`, gains `g`, quantum efficiencies `qe > 0` and any
dark baseline, `electrons_to_photons (adu_to_electrons x dark g) qe`
equals `adu_to_photons x dark g qe` exactly, with no intermediate
rounding. -/
theorem C6_composition_identity (x dark g qe : ℚ) (hx : 0 ≤ x) (hqe : 0 < qe) :
    electrons_to_photons (adu_to_electrons x dark g) qe =
      adu_to_photons x dark g qe := rfl

/-- Witness for C6 at `x = 3`, `dark = 0`, `g = 5`, `qe = 2`. -/
theorem C6_composition_identity_witness :
    (0 : ℚ) ≤ 3 ∧ (0 : ℚ) < 2 ∧
      electrons_to_photons (adu_to_electrons 3 0 5) 2 = adu_to_photons 3 0 5 2 :=
  ⟨by norm_num, by norm_num,
    C6_composition_identity 3 0 5 2 (by norm_num) (by norm_num)⟩

/-- C7: whenever the signal lies below the dark baseline the electron
count is clipped to zero (hence never negative), and in particular
`adu_to_photons 50 100 0.35 0.6182 = 0`. -/
theorem C7_negative_delta_clips_to_zero (signal dark gain : ℚ)
    (h : signal < dark) :
    adu_to_electrons signal dark gain = 0 ∧
    0 ≤ adu_to_electrons signal dark gain ∧
    adu_to_photons 50 100 SYSTEM_GAIN QE_AT_525NM = 0 := by
  have hmax : max (0 : ℚ) (signal - dark) = 0 := max_eq_left (by linarith)
  refine ⟨?_, ?_, ?_⟩
  · unfold adu_to_electrons
    simp [hmax]
  · unfold adu_to_electrons
    simp [hmax]
  · show max 0 ((50 : ℚ) - 100) * SYSTEM_GAIN / QE_AT_525NM = 0
    rw [max_eq_left (by norm_num : (50 : ℚ) - 100 ≤ 0)]
    simp

/-- Witness for C7 at `signal = 50`, `dark = 100`. -/
theorem C7_negative_delta_clips_to_zero_witness :
    (50 : ℚ) < 100 ∧ adu_to_electrons 50 100 SYSTEM_GAIN = 0 :=
  ⟨by norm_num,
    (C7_negative_delta_clips_to_zero 50 100 SYSTEM_GAIN (by norm_num)).1⟩

/-- C8: every invocation of `process_frame` increments `frame_idx` by
exactly one, on a miss, during calibration, and after calibration
alike. -/
theorem C8_frame_index_increments (s : AcqState) (image : Option Frame)
    (roi_size : ℕ × ℕ) :
    (process_frame s image roi_size).1.frame_idx = s.frame_idx + 1 := by
  cases image with
  | none => rfl
  | some img =>
    simp only [process_frame]
    split_ifs <;> simp [complete_calibration]

/-- C9: `reset_calibration` yields a state with `is_calibrated = false`,
`mean_dark = 0`, empty `baseline_vals` and `frame_idx = 0`, from any
starting state (mid-calibration or post-calibration). -/
theorem C9_reset_clears_state (s : AcqState) :
    (reset_calibration s).is_calibrated = false ∧
    (reset_calibration s).mean_dark = 0 ∧
    (reset_calibration s).baseline_vals = [] ∧
    (reset_calibration s).frame_idx = 0 :=
  ⟨rfl, rfl, rfl, rfl⟩

/-- C2 counterexample: for a frame of width 4 and ROI width 1 the code
places the window at column `4 / 2 - 1 / 2 = 2`, not at
`(4 - 1) / 2 = 1` as the claim states; on a concrete 4×4 frame the
extracted 1×1 window is the entry at row 2, column 2, not row 1,
column 1. -/
theorem C2_centered_offset_counterexample :
    roi_x0 4 1 = 2 ∧ ((4 : ℤ) - 1) / 2 = 1 ∧ roi_x0 4 1 ≠ ((4 : ℤ) - 1) / 2 ∧
    extract_roi [[0, 1, 2, 3], [10, 11, 12, 13], [20, 21, 22, 23],
        [30, 31, 32, 33]] (1, 1) = [[22]] := by
  refine ⟨by decide, by decide, by decide, by decide⟩

/-- C2 amended: for `roi_dim ≤ frame_dim` the window offset computed by
`extract_roi` is `frame_dim / 2 - roi_dim / 2`, which equals
`⌊(frame_dim - roi_dim) / 2⌋` exactly, except when the frame dimension
is even and the ROI dimension odd, where it is greater by one. -/
theorem C2_centered_offset_amended (w h roi_w roi_h : ℕ)
    (hw : roi_w ≤ w) (hh : roi_h ≤ h) :
    roi_x0 w roi_w =
      ((w : ℤ) - roi_w) / 2 +
        (if w % 2 = 0 ∧ roi_w % 2 = 1 then 1 else 0) ∧
    roi_y0 h roi_h =
      ((h : ℤ) - roi_h) / 2 +
        (if h % 2 = 0 ∧ roi_h % 2 = 1 then 1 else 0) := by
  constructor
  · unfold roi_x0
    split <;> omega
  · unfold roi_y0
    split <;> omega

/-- Witness for the amended C2 at `w = h = 4`, `roi_w = roi_h = 1`. -/
theorem C2_centered_offset_amended_witness :
    roi_x0 4 1 =
      ((4 : ℤ) - 1) / 2 + (if (4 : ℕ) % 2 = 0 ∧ (1 : ℕ) % 2 = 1 then 1 else 0) ∧
    roi_y0 4 1 =
      ((4 : ℤ) - 1) / 2 + (if (4 : ℕ) % 2 = 0 ∧ (1 : ℕ) % 2 = 1 then 1 else 0) :=
  C2_centered_offset_amended 4 4 1 1 (by decide) (by decide)

/-- C3 counterexample: `create_acquisition_state` with a zero baseline
target and non-positive gain and quantum efficiency raises no error; it
returns a usable uncalibrated state that happily processes a frame and
emits a reading. -/
theorem C3_construction_counterexample :
    (create_acquisition_state 0 (-1) (-1)).is_calibrated = false ∧
    (process_frame (create_acquisition_state 0 (-1) (-1))
        (some [[100]]) (1, 1)).2 = some 0 := by
  refine ⟨by decide, by decide⟩

/-- C3 amended: session construction performs no validation at all;
for every configuration, valid or not, it returns a fresh uncalibrated
state with `frame_idx = 0` on which `process_frame` produces a reading,
rather than failing. -/
theorem C3_construction_never_rejects (baseline_frames : ℕ) (gain qe : ℚ)
    (image : Frame) (roi_size : ℕ × ℕ) :
    (create_acquisition_state baseline_frames gain qe).is_calibrated = false ∧
    (create_acquisition_state baseline_frames gain qe).frame_idx = 0 ∧
    ((process_frame (create_acquisition_state baseline_frames gain qe)
        (some image) roi_size).2).isSome = true := by
  refine ⟨rfl, rfl, ?_⟩
  simp [process_frame, create_acquisition_state]

/-- The `toNat` of the horizontal offset agrees with the ℕ-level
computation `w / 2 - roi_w / 2` (with truncated subtraction). -/
lemma roi_x0_toNat (w r : ℕ) : (roi_x0 w r).toNat = w / 2 - r / 2 := by
  unfold roi_x0
  omega

/-- The `toNat` of the vertical offset agrees with the ℕ-level
computation `h / 2 - roi_h / 2` (with truncated subtraction). -/
lemma roi_y0_toNat (h r : ℕ) : (roi_y0 h r).toNat = h / 2 - r / 2 := by
  unfold roi_y0
  omega

/-- C4: the calibration transition fires exactly when the appended
sample count reaches `baseline_frames`, freezing `mean_dark` as the
arithmetic mean of the samples at that instant; once calibrated, no
tick re-enters the baseline phase or changes `mean_dark` or the
samples; and running baseline samples 100, 102, 98 with target 3 from
a fresh session ends calibrated with `mean_dark = 100`. -/
theorem C4_calibration_transition :
    (∀ (s : AcqState) (img : Frame) (roi_size : ℕ × ℕ),
        s.is_calibrated = false →
        s.baseline_vals.length < s.baseline_frames →
        (((process_frame s (some img) roi_size).1.is_calibrated = true ↔
            s.baseline_vals.length + 1 = s.baseline_frames) ∧
         (s.baseline_vals.length + 1 = s.baseline_frames →
            (process_frame s (some img) roi_size).1.mean_dark =
              listMean (s.baseline_vals ++
                [matMean (extract_roi img roi_size)])))) ∧
    (∀ (s : AcqState) (image : Option Frame) (roi_size : ℕ × ℕ),
        s.is_calibrated = true →
        ((process_frame s image roi_size).1.is_calibrated = true ∧
         (process_frame s image roi_size).1.mean_dark = s.mean_dark ∧
         (process_frame s image roi_size).1.baseline_vals =
           s.baseline_vals)) ∧
    ((run_ticks (create_acquisition_state 3 SYSTEM_GAIN QE_AT_525NM)
        [some [[100]], some [[102]], some [[98]]] (1, 1)).is_calibrated
        = true ∧
     (run_ticks (create_acquisition_state 3 SYSTEM_GAIN QE_AT_525NM)
        [some [[100]], some [[102]], some [[98]]] (1, 1)).mean_dark
        = 100) := by
  refine ⟨?_, ?_, ?_, ?_⟩
  · intro s img roi_size hcal hlen
    by_cases hc : s.baseline_vals.length + 1 = s.baseline_frames
    · have hle : s.baseline_frames ≤ s.baseline_vals.length + 1 := by omega
      simp [process_frame, hcal, complete_calibration, hc, hle]
    · have hgt : ¬ s.baseline_frames ≤ s.baseline_vals.length + 1 := by omega
      simp [process_frame, hcal, hgt, hc]
  · intro s image roi_size hcal
    cases image with
    | none => simp [process_frame, hcal]
    | some img => simp [process_frame, hcal]
  · decide
  · norm_num [run_ticks, process_frame, complete_calibration,
      create_acquisition_state, extract_roi, matMean, listMean, frameH,
      frameW, roi_x0, roi_y0]

/-- Witness for C4 at a fresh session with target 1 and one frame of
mean 100 (the transition tick). -/
theorem C4_calibration_transition_witness :
    ((process_frame (create_acquisition_state 1 SYSTEM_GAIN QE_AT_525NM)
        (some [[100]]) (1, 1)).1.is_calibrated = true ↔
      (create_acquisition_state 1 SYSTEM_GAIN
          QE_AT_525NM).baseline_vals.length + 1 = 1) ∧
    ((create_acquisition_state 1 SYSTEM_GAIN
        QE_AT_525NM).baseline_vals.length + 1 = 1 →
      (process_frame (create_acquisition_state 1 SYSTEM_GAIN QE_AT_525NM)
          (some [[100]]) (1, 1)).1.mean_dark =
        listMean ((create_acquisition_state 1 SYSTEM_GAIN
            QE_AT_525NM).baseline_vals ++
          [matMean (extract_roi [[100]] (1, 1))])) :=
  C4_calibration_transition.1 (create_acquisition_state 1 SYSTEM_GAIN
    QE_AT_525NM) [[100]] (1, 1) (by decide) (by decide)

/-- C10: for a rectangular frame of shape `h × w` and an ROI with
`0 < roi_w ≤ w` and `0 < roi_h ≤ h`, the slice bounds computed by
`extract_roi` stay inside the frame and the extracted window has
exactly shape `roi_h × roi_w` — no silent slice truncation. -/
theorem C10_roi_slice_in_bounds (image : Frame) (w h roi_w roi_h : ℕ)
    (hH : image.length = h) (hW : ∀ row ∈ image, row.length = w)
    (hw0 : 0 < roi_w) (hw : roi_w ≤ w) (hh0 : 0 < roi_h) (hh : roi_h ≤ h) :
    0 ≤ roi_x0 w roi_w ∧ 0 ≤ roi_y0 h roi_h ∧
    roi_x0 w roi_w + (roi_w : ℤ) ≤ (w : ℤ) ∧
    roi_y0 h roi_h + (roi_h : ℤ) ≤ (h : ℤ) ∧
    (extract_roi image (roi_w, roi_h)).length = roi_h ∧
    ∀ row ∈ extract_roi image (roi_w, roi_h), row.length = roi_w := by
  have hne : image ≠ [] := by
    intro e
    rw [e] at hH
    simp at hH
    omega
  have hfw : frameW image = w := by
    unfold frameW
    cases image with
    | nil => exact absurd rfl hne
    | cons r rs => exact hW r (by simp)
  refine ⟨by unfold roi_x0; omega, by unfold roi_y0; omega,
    by unfold roi_x0; omega, by unfold roi_y0; omega, ?_, ?_⟩
  · unfold extract_roi
    simp only [frameH, hfw, List.length_map, List.length_take,
      List.length_drop, roi_y0_toNat, hH]
    omega
  · intro row hrow
    unfold extract_roi at hrow
    simp only [List.mem_map] at hrow
    obtain ⟨r, hr, rfl⟩ := hrow
    have hrmem : r ∈ image :=
      List.drop_subset _ _ (List.take_subset _ _ hr)
    have hrw : r.length = w := hW r hrmem
    simp only [List.length_take, List.length_drop, hrw, hfw, roi_x0_toNat]
    omega

/-- Witness for C10 on the 2×2 frame `[[1, 2], [3, 4]]` with a 1×1
ROI. -/
theorem C10_roi_slice_in_bounds_witness :
    0 ≤ roi_x0 2 1 ∧ 0 ≤ roi_y0 2 1 ∧
    roi_x0 2 1 + ((1 : ℕ) : ℤ) ≤ ((2 : ℕ) : ℤ) ∧
    roi_y0 2 1 + ((1 : ℕ) : ℤ) ≤ ((2 : ℕ) : ℤ) ∧
    (extract_roi [[1, 2], [3, 4]] (1, 1)).length = 1 ∧
    ∀ row ∈ extract_roi [[1, 2], [3, 4]] (1, 1), row.length = 1 :=
  C10_roi_slice_in_bounds [[1, 2], [3, 4]] 2 2 1 1 (by decide) (by decide)
    (by decide) (by decide) (by decide) (by decide)

/-- C5: one append followed by the eviction step with capacity
`m > 0` leaves at most `m` pairs, and the retained pairs are exactly
the most recently appended `m` pairs in insertion order; appending 600
sequential points with `m = 500` retains exactly the last 500 x-values
in order. -/
theorem C5_history_eviction :
    (∀ (dx : List ℕ) (dy : List ℚ) (x : ℕ) (y : ℚ) (m : ℕ),
        0 < m → dx.length = dy.length →
        ((limit_plot_history (dx ++ [x]) (dy ++ [y]) m).1.length ≤ m ∧
         (limit_plot_history (dx ++ [x]) (dy ++ [y]) m).1 =
           (dx ++ [x]).drop (dx.length + 1 - m) ∧
         (limit_plot_history (dx ++ [x]) (dy ++ [y]) m).2 =
           (dy ++ [y]).drop (dy.length + 1 - m))) ∧
    (append_points 600 500).1.length = 500 ∧
    (append_points 600 500).1 = (List.range 600).drop 100 := by
  refine ⟨?_, ?_, ?_⟩
  · intro dx dy x y m hm hlen
    refine ⟨?_, ?_, ?_⟩
    · rw [limit_plot_history_eq]
      simp only [List.length_drop, List.length_append, List.length_cons,
        List.length_nil]
      omega
    · rw [limit_plot_history_eq]
      simp
    · rw [limit_plot_history_eq]
      simp [hlen]
  · rw [append_points_fst]
    norm_num
  · rw [append_points_fst]

/-- Witness for C5 at `dx = dy = []`, point `(7, 5)`, capacity 1. -/
theorem C5_history_eviction_witness :
    (limit_plot_history (([] : List ℕ) ++ [7]) (([] : List ℚ) ++ [5]) 1).1.length
      ≤ 1 ∧
    (limit_plot_history (([] : List ℕ) ++ [7]) (([] : List ℚ) ++ [5]) 1).1 =
      (([] : List ℕ) ++ [7]).drop (([] : List ℕ).length + 1 - 1) ∧
    (limit_plot_history (([] : List ℕ) ++ [7]) (([] : List ℚ) ++ [5]) 1).2 =
      (([] : List ℚ) ++ [5]).drop (([] : List ℚ).length + 1 - 1) :=
  C5_history_eviction.1 [] [] 7 5 1 (by decide) rfl

/-- C1 counterexample: with `baseline_frames = 1` the very first tick is
a baseline-phase tick (the session starts uncalibrated), yet the timer
callback appends its reading to the plot buffer, because
`complete_calibration` flips `is_calibrated` before the callback's
guard reads it: the buffer receives the point `(1, 0)` produced by a
baseline-phase tick. -/
theorem C1_baseline_point_reaches_buffer :
    (create_acquisition_state 1 SYSTEM_GAIN QE_AT_525NM).is_calibrated
      = false ∧
    (update_step (create_acquisition_state 1 SYSTEM_GAIN QE_AT_525NM) [] []
        (1, 1) 500 (some [[100]])).2.1 = [1] := by
  refine ⟨by decide, by decide⟩

/-- C1 amended: every baseline-phase tick with a frame emits photon
count 0; the buffer is untouched by every baseline-phase tick except
the one on which the calibration transition occurs, where the pair
`(frame_idx, 0)` is appended (the callback's guard reads
`is_calibrated` after the tick ran). -/
theorem C1_baseline_phase_amended (acq : AcqState) (data_x : List ℕ)
    (data_y : List ℚ) (roi_size : ℕ × ℕ) (m : ℕ) (img : Frame)
    (h : acq.is_calibrated = false) :
    (process_frame acq (some img) roi_size).2 = some 0 ∧
    ((process_frame acq (some img) roi_size).1.is_calibrated = false →
      update_step acq data_x data_y roi_size m (some img) =
        ((process_frame acq (some img) roi_size).1, data_x, data_y)) ∧
    ((process_frame acq (some img) roi_size).1.is_calibrated = true →
      (update_step acq data_x data_y roi_size m (some img)).2 =
        limit_plot_history
          (data_x ++ [(process_frame acq (some img) roi_size).1.frame_idx])
          (data_y ++ [(0 : ℚ)]) m) := by
  have hp : (process_frame acq (some img) roi_size).2 = some 0 := by
    simp [process_frame, h]
  refine ⟨hp, ?_, ?_⟩
  · intro hcal
    simp [update_step, hp, hcal]
  · intro hcal
    simp [update_step, hp, hcal]

/-- Witness for the amended C1 on a fresh session with target 2: the
first tick stays uncalibrated, emits 0 and leaves the buffer alone. -/
theorem C1_baseline_phase_amended_witness :
    (process_frame (create_acquisition_state 2 SYSTEM_GAIN QE_AT_525NM)
        (some [[100]]) (1, 1)).2 = some 0 ∧
    ((process_frame (create_acquisition_state 2 SYSTEM_GAIN QE_AT_525NM)
        (some [[100]]) (1, 1)).1.is_calibrated = false →
      update_step (create_acquisition_state 2 SYSTEM_GAIN QE_AT_525NM)
          ([] : List ℕ) ([] : List ℚ) (1, 1) 500 (some [[100]]) =
        ((process_frame (create_acquisition_state 2 SYSTEM_GAIN QE_AT_525NM)
            (some [[100]]) (1, 1)).1, ([] : List ℕ), ([] : List ℚ))) ∧
    ((process_frame (create_acquisition_state 2 SYSTEM_GAIN QE_AT_525NM)
        (some [[100]]) (1, 1)).1.is_calibrated = true →
      (update_step (create_acquisition_state 2 SYSTEM_GAIN QE_AT_525NM)
          ([] : List ℕ) ([] : List ℚ) (1, 1) 500 (some [[100]])).2 =
        limit_plot_history
          (([] : List ℕ) ++
            [(process_frame (create_acquisition_state 2 SYSTEM_GAIN
                QE_AT_525NM) (some [[100]]) (1, 1)).1.frame_idx])
          (([] : List ℚ) ++ [(0 : ℚ)]) 500) :=
  C1_baseline_phase_amended (create_acquisition_state 2 SYSTEM_GAIN
    QE_AT_525NM) [] [] (1, 1) 500 [[100]] (by decide)
